import Mathlib

/-!
Verification of the spectral-mixture GP regression example
(`examples/spectral_mixture_gp_regression.ipynb`).

The notebook is glue code over a GP library: it generates a toy sine
dataset (cell-2), builds a model from a constant mean, a 3-component
spectral-mixture kernel and a Gaussian likelihood (cell-4), runs 50 Adam
iterations on the negative marginal log-likelihood (cell-5), and
evaluates the fitted model on 51 test points with a 2-sigma confidence
band (cell-6).  Library internals that are part of the project but not
shipped with the example (the kernel formula, the bound-enforcing
reparameterization, the jitter retry inside the likelihood, the
confidence band) are modelled from the specification; each such
definition says so in its doc comment.  Floating-point numbers are
modelled as real numbers, and the evenly-spaced grids as rationals.
-/

namespace SMGP

/-! ## Evenly spaced grids (torch.linspace) -/

/-- Model of torch.linspace over the rationals: n points from a to b,
endpoints included, as used for train_x (cell-2) and test_x (cell-6). -/
def linspace (a b : ℚ) (n : ℕ) : List ℚ :=
  (List.range n).map (fun i : ℕ => a + (i : ℚ) * (b - a) / ((n : ℚ) - 1))

/-- Training inputs of cell-2: torch.linspace(0, 0.75, 11). -/
def trainX : List ℚ := linspace 0 (3/4) 11

/-- Test inputs of cell-6: torch.linspace(0, 5, 51). -/
def testX : List ℚ := linspace 0 5 51

theorem linspace_length (a b : ℚ) (n : ℕ) : (linspace a b n).length = n := by
  simp [linspace]

theorem linspace_getD (a b : ℚ) (n i : ℕ) (hi : i < n) :
    (linspace a b n).getD i 0 = a + (i : ℚ) * (b - a) / ((n : ℚ) - 1) := by
  unfold linspace
  rw [List.getD_eq_getElem?_getD, List.getElem?_map, List.getElem?_range hi]
  rfl

theorem linspace_spacing (a b : ℚ) (n i : ℕ) (hi : i + 1 < n) :
    (linspace a b n).getD (i + 1) 0 - (linspace a b n).getD i 0 = (b - a) / ((n : ℚ) - 1) := by
  rw [linspace_getD a b n (i + 1) hi, linspace_getD a b n i (Nat.lt_of_succ_lt hi)]
  push_cast
  ring

/-! ## The recorded loss trajectory (printed output of cell-5) -/

/-- The 50 loss values printed by the training loop of cell-5, in order
(iteration 1 first). -/
def referenceLosses : List ℚ :=
  [1542/1000, 1388/1000, 1319/1000, 1263/1000, 1165/1000,
   1085/1000, 1054/1000, 925/1000, 939/1000, 926/1000,
   965/1000, 1047/1000, 1012/1000, 948/1000, 874/1000,
   873/1000, 873/1000, 787/1000, 936/1000, 610/1000,
   566/1000, 601/1000, 588/1000, 617/1000, 836/1000,
   536/1000, 508/1000, 718/1000, 684/1000, 632/1000,
   758/1000, 738/1000, 795/1000, 524/1000, 510/1000,
   450/1000, 623/1000, 451/1000, 496/1000, 506/1000,
   559/1000, 555/1000, 303/1000, 480/1000, 411/1000,
   378/1000, 477/1000, 407/1000, 628/1000, 454/1000]

/-- C2: in the reference run the loss recorded at iteration 50 is lower
than the loss recorded at iteration 1; the trajectory starts at
approximately 1.54 (within 0.01), ends inside [0.45, 0.63], and is not
monotonically decreasing iteration-to-iteration (iteration 9's loss
exceeds iteration 8's). -/
theorem referenceLosses_final_below_initial :
    referenceLosses.length = 50
    ∧ referenceLosses.getD 49 0 < referenceLosses.getD 0 0
    ∧ 153/100 ≤ referenceLosses.getD 0 0
    ∧ referenceLosses.getD 0 0 ≤ 155/100
    ∧ 45/100 ≤ referenceLosses.getD 49 0
    ∧ referenceLosses.getD 49 0 ≤ 63/100
    ∧ referenceLosses.getD 7 0 < referenceLosses.getD 8 0 := by
  have h0 : referenceLosses.getD 0 0 = 1542/1000 := rfl
  have h7 : referenceLosses.getD 7 0 = 925/1000 := rfl
  have h8 : referenceLosses.getD 8 0 = 939/1000 := rfl
  have h49 : referenceLosses.getD 49 0 = 454/1000 := rfl
  refine ⟨rfl, ?_, ?_, ?_, ?_, ?_, ?_⟩
  all_goals simp only [h0, h7, h8, h49]
  all_goals norm_num

/-! ## Spectral mixture kernel (cell-4: SpectralMixtureKernel(n_mixtures=3)) -/

/-- Modelled from the spec: the SpectralMixtureKernel implementation is part
of the library, not of the example notebook.  Per the spec, for
one-dimensional inputs with Q mixture components of weights w, mean
frequencies mu and variances v,
k(tau) = sum over q of w q * exp(-2 pi^2 tau^2 v q) * cos(2 pi tau mu q). -/
noncomputable def smKernel (Q : ℕ) (w mu v : Fin Q → ℝ) (τ : ℝ) : ℝ :=
  ∑ q : Fin Q, w q * Real.exp (-2 * Real.pi ^ 2 * τ ^ 2 * v q) *
    Real.cos (2 * Real.pi * τ * mu q)

/-- Modelled from the spec: covariance(X1, X2) is computed elementwise from
the stationary kernel; this is the self-covariance K(X, X), whose entry
(i, j) is k(X i - X j). -/
noncomputable def smCovMatrix (Q n : ℕ) (w mu v : Fin Q → ℝ) (X : Fin n → ℝ) :
    Fin n → Fin n → ℝ :=
  fun i j => smKernel Q w mu v (X i - X j)

theorem smKernel_zero (Q : ℕ) (w mu v : Fin Q → ℝ) :
    smKernel Q w mu v 0 = ∑ q : Fin Q, w q := by
  unfold smKernel
  refine Finset.sum_congr rfl fun q _ => ?_
  simp

/-- C4: for every number Q of components and positive weights (any
frequencies and variances), the kernel at tau = 0 equals the sum of the
weights, and that value is strictly positive. -/
theorem smKernel_at_zero_eq_sum_weights (Q : ℕ) (w mu v : Fin Q → ℝ)
    (hQ : 0 < Q) (hw : ∀ q, 0 < w q) :
    smKernel Q w mu v 0 = ∑ q : Fin Q, w q ∧ 0 < smKernel Q w mu v 0 := by
  have h := smKernel_zero Q w mu v
  refine ⟨h, ?_⟩
  rw [h]
  exact Finset.sum_pos (fun q _ => hw q) ⟨⟨0, hQ⟩, Finset.mem_univ _⟩

/-- Witness for C4 at Q = 3 (the notebook's n_mixtures) with all weights,
frequencies and variances equal to 1. -/
theorem smKernel_at_zero_eq_sum_weights_witness :
    smKernel 3 (fun _ => 1) (fun _ => 1) (fun _ => 1) 0 = ∑ _q : Fin 3, (1 : ℝ)
    ∧ 0 < smKernel 3 (fun _ => 1) (fun _ => 1) (fun _ => 1) 0 :=
  smKernel_at_zero_eq_sum_weights 3 (fun _ => 1) (fun _ => 1) (fun _ => 1)
    (by norm_num) (fun _q => by norm_num)

theorem smKernel_even (Q : ℕ) (w mu v : Fin Q → ℝ) (τ : ℝ) :
    smKernel Q w mu v (-τ) = smKernel Q w mu v τ := by
  unfold smKernel
  refine Finset.sum_congr rfl fun q _ => ?_
  rw [show 2 * Real.pi * -τ * mu q = -(2 * Real.pi * τ * mu q) by ring,
    Real.cos_neg, neg_sq]

/-- C5: the spectral-mixture self-covariance matrix K(X, X) is symmetric:
K i j = K j i for every input sequence X and all index pairs i, j. -/
theorem smCovMatrix_symmetric (Q n : ℕ) (w mu v : Fin Q → ℝ) (X : Fin n → ℝ)
    (i j : Fin n) :
    smCovMatrix Q n w mu v X i j = smCovMatrix Q n w mu v X j i := by
  unfold smCovMatrix
  rw [show X i - X j = -(X j - X i) by ring, smKernel_even]

/-! ## Training loop (cell-5) -/

/-- Raw (pre-constraint) parameters of the model of cell-4: the constant
mean, the log noise owned by the likelihood, and the three length-3
parameter vectors of the spectral mixture kernel (n_mixtures = 3). -/
structure SMParams where
  meanRaw : ℝ
  logNoiseRaw : ℝ
  logWeight : Fin 3 → ℝ
  logMean : Fin 3 → ℝ
  logScale : Fin 3 → ℝ

namespace SMParams

/-- Elementwise sum, the shape in which autograd accumulates gradients
into the .grad buffers. -/
noncomputable def add (p q : SMParams) : SMParams :=
  ⟨p.meanRaw + q.meanRaw, p.logNoiseRaw + q.logNoiseRaw,
   fun i => p.logWeight i + q.logWeight i,
   fun i => p.logMean i + q.logMean i,
   fun i => p.logScale i + q.logScale i⟩

/-- The zeroed gradient buffer produced by optimizer.zero_grad(). -/
def zero : SMParams := ⟨0, 0, fun _ => 0, fun _ => 0, fun _ => 0⟩

theorem zero_add (p : SMParams) : add zero p = p := by
  cases p
  simp [add, zero]

end SMParams

/-- State of the training loop of cell-5: current parameters, the gradient
accumulator (the .grad buffers), the optimizer's internal state (Adam
moment estimates), and the list of recorded losses. -/
structure TrainState (O : Type) where
  params : SMParams
  gradAccum : SMParams
  opt : O
  losses : List ℝ

/-- External collaborators of the loop of cell-5: the loss
negMll p = -mll(model(train_x), train_y) as a function of the parameters,
reverse-mode differentiation gradOf, and the Adam update adamStep (its
first argument is the learning rate). -/
structure TrainConfig (O : Type) where
  negMll : SMParams → ℝ
  gradOf : SMParams → SMParams
  adamStep : ℝ → O → SMParams → SMParams → O × SMParams

/-- Learning rate passed to torch.optim.Adam in cell-5. -/
noncomputable def learningRate : ℝ := 1/10

/-- Iteration budget training_iter of cell-5. -/
def trainingIter : ℕ := 50

/-- One iteration of the loop of cell-5, in source order:
optimizer.zero_grad(); loss = -mll(model(train_x), train_y);
loss.backward(), which adds the fresh gradient to the zeroed accumulator;
the loss is printed (recorded); optimizer.step(). -/
noncomputable def trainIter {O : Type} (cfg : TrainConfig O) (s : TrainState O) :
    TrainState O :=
  let loss := cfg.negMll s.params
  let accum := SMParams.add SMParams.zero (cfg.gradOf s.params)
  let stepped := cfg.adamStep learningRate s.opt s.params accum
  { params := stepped.2, gradAccum := accum, opt := stepped.1,
    losses := s.losses ++ [loss] }

/-- The whole training run of cell-5: exactly trainingIter iterations, with
no convergence-based early stop. -/
noncomputable def runTraining {O : Type} (cfg : TrainConfig O) (s : TrainState O) :
    TrainState O :=
  (trainIter cfg)^[trainingIter] s

theorem trainIter_losses {O : Type} (cfg : TrainConfig O) (s : TrainState O) :
    (trainIter cfg s).losses = s.losses ++ [cfg.negMll s.params] := rfl

theorem iterate_losses_length {O : Type} (cfg : TrainConfig O) (s : TrainState O)
    (n : ℕ) : (((trainIter cfg)^[n]) s).losses.length = s.losses.length + n := by
  induction n with
  | zero => simp
  | succ k ih =>
      rw [Function.iterate_succ_apply', trainIter_losses, List.length_append, ih]
      simp [Nat.add_assoc]

/-- C1: the loop of cell-5 runs exactly 50 iterations regardless of the
loss values (no convergence-based early stop); each iteration appends
exactly one recorded loss, equal to -mll evaluated at that iteration's
incoming parameters, and applies one Adam step at learning rate 0.1 to
the accumulated automatic-differentiation gradient. -/
theorem training_loop_fifty_iterations {O : Type} (cfg : TrainConfig O)
    (s0 : TrainState O) (k : ℕ) :
    trainingIter = 50
    ∧ learningRate = 1/10
    ∧ (runTraining cfg s0).losses.length = s0.losses.length + 50
    ∧ ((trainIter cfg)^[k+1] s0).losses
        = ((trainIter cfg)^[k] s0).losses
          ++ [cfg.negMll ((trainIter cfg)^[k] s0).params]
    ∧ (trainIter cfg s0).params
        = (cfg.adamStep learningRate s0.opt s0.params
            (SMParams.add SMParams.zero (cfg.gradOf s0.params))).2 := by
  refine ⟨rfl, rfl, iterate_losses_length cfg s0 50, ?_, rfl⟩
  rw [Function.iterate_succ_apply']
  exact trainIter_losses cfg _

/-- C9: optimizer.zero_grad() precedes loss.backward() in every iteration,
so the gradient accumulator handed to optimizer.step() equals exactly the
gradient of the current iteration's loss, independent of whatever was
accumulated in the incoming state. -/
theorem step_uses_only_current_gradient {O : Type} (cfg : TrainConfig O)
    (s : TrainState O) :
    (trainIter cfg s).gradAccum = cfg.gradOf s.params
    ∧ (trainIter cfg s).params
        = (cfg.adamStep learningRate s.opt s.params (cfg.gradOf s.params)).2 := by
  constructor
  · show SMParams.add SMParams.zero (cfg.gradOf s.params) = _
    exact SMParams.zero_add _
  · show (cfg.adamStep learningRate s.opt s.params
        (SMParams.add SMParams.zero (cfg.gradOf s.params))).2 = _
    rw [SMParams.zero_add]

/-! ## Parameter constraints (cell-4's bounds) -/

/-- Constrained, user-visible parameters derived from the raw ones. -/
structure ConstrainedParams where
  mean : ℝ
  logNoise : ℝ
  weight : Fin 3 → ℝ
  freq : Fin 3 → ℝ
  var : Fin 3 → ℝ

/-- Clamp x into the interval from lo to hi. -/
noncomputable def clampTo (lo hi x : ℝ) : ℝ := max lo (min x hi)

/-- Modelled from the spec: the bound-enforcing reparameterization lives in
the library, not in the notebook.  Per the spec, interval bounds
(ConstantMean(constant_bounds=(-1, 1)),
GaussianLikelihood(log_noise_bounds=(-5, 5))) are enforced by clipping,
and the kernel's positive parameters are stored as raw logs and
exponentiated. -/
noncomputable def constrain (p : SMParams) : ConstrainedParams :=
  { mean := clampTo (-1) 1 p.meanRaw
    logNoise := clampTo (-5) 5 p.logNoiseRaw
    weight := fun q => Real.exp (p.logWeight q)
    freq := fun q => Real.exp (p.logMean q)
    var := fun q => Real.exp (p.logScale q) }

/-- The configured bounds of cell-4: mean in [-1, 1], log noise in [-5, 5],
weights and variances strictly positive, frequencies nonnegative. -/
def inBounds (c : ConstrainedParams) : Prop :=
  -1 ≤ c.mean ∧ c.mean ≤ 1 ∧ -5 ≤ c.logNoise ∧ c.logNoise ≤ 5
  ∧ (∀ q, 0 < c.weight q) ∧ (∀ q, 0 ≤ c.freq q) ∧ (∀ q, 0 < c.var q)

theorem constrain_inBounds (p : SMParams) : inBounds (constrain p) := by
  refine ⟨le_max_left _ _, max_le (by norm_num) (min_le_right _ _),
    le_max_left _ _, max_le (by norm_num) (min_le_right _ _),
    fun q => Real.exp_pos _, fun q => (Real.exp_pos _).le,
    fun q => Real.exp_pos _⟩

/-- C6: after every prefix of the training loop — in particular after each
of the 50 iterations — the constrained parameters satisfy their
configured bounds, whatever raw values Adam has produced. -/
theorem training_preserves_bounds {O : Type} (cfg : TrainConfig O)
    (s0 : TrainState O) (n : ℕ) :
    inBounds (constrain (((trainIter cfg)^[n]) s0).params) :=
  constrain_inBounds _

/-! ## Failure propagation (cell-5 installs no exception handler) -/

/-- The spec's error taxonomy as relevant to the training entry point. -/
inductive GPError where
  | numericalInstability

/-- Modelled from the spec: the escalating jitter schedule of the
likelihood's bounded Cholesky retry (about five escalating attempts);
the retry logic lives in the library, not in the notebook. -/
def jitterSchedule : List ℚ := [1/1000000, 1/100000, 1/10000, 1/1000, 1/100]

/-- Modelled from the spec: attempt the Cholesky factorization at each
jitter level in turn; factorizes j says whether factorizing
K_noisy + j*I succeeds.  Returns the first successful jitter level, or
the NumericalInstability error once the bounded schedule is exhausted. -/
def tryCholeskyWithJitter (factorizes : ℚ → Bool) : List ℚ → Except GPError ℚ
  | [] => Except.error GPError.numericalInstability
  | j :: rest =>
      if factorizes j then Except.ok j else tryCholeskyWithJitter factorizes rest

/-- Modelled from the spec: log_marginal_likelihood succeeds exactly when
the bounded jitter retry finds a factorizable matrix; there is no other
recovery path. -/
def logMarginalLikelihoodE (factorizes : ℚ → Bool) (mllAt : ℚ → ℚ) :
    Except GPError ℚ :=
  (tryCholeskyWithJitter factorizes jitterSchedule).map mllAt

/-- The training loop seen through its failure behavior: cell-5 installs
no handler, so an iteration that raises ends the run with that error. -/
def trainLoopE {σ : Type} (step : σ → Except GPError σ) : ℕ → σ → Except GPError σ
  | 0, s => Except.ok s
  | n+1, s =>
      match step s with
      | Except.error e => Except.error e
      | Except.ok next => trainLoopE step n next

theorem tryCholesky_all_fail (factorizes : ℚ → Bool) (js : List ℚ)
    (h : ∀ j ∈ js, factorizes j = false) :
    tryCholeskyWithJitter factorizes js
      = Except.error GPError.numericalInstability := by
  induction js with
  | nil => rfl
  | cons j rest ih =>
      have hj : factorizes j = false := h j (by simp)
      have hrest := ih fun x hx => h x (List.mem_cons_of_mem _ hx)
      simp [tryCholeskyWithJitter, hj, hrest]

/-- C8: failures surface to the caller: when every level of the bounded
jitter schedule fails to factorize, the likelihood computation returns
the NumericalInstability error; the schedule has exactly five attempts;
an erroring iteration aborts the whole run with that same error and no
restart; and success at a jitter level is the one explicit recovery. -/
theorem failures_surface_to_caller {σ : Type} (factorizes : ℚ → Bool)
    (mllAt : ℚ → ℚ) (step : σ → Except GPError σ) (s : σ) (n : ℕ) (e : GPError) :
    ((∀ j ∈ jitterSchedule, factorizes j = false) →
      logMarginalLikelihoodE factorizes mllAt
        = Except.error GPError.numericalInstability)
    ∧ jitterSchedule.length = 5
    ∧ (step s = Except.error e → trainLoopE step (n+1) s = Except.error e)
    ∧ (∀ j js, factorizes j = true →
        tryCholeskyWithJitter factorizes (j :: js) = Except.ok j) := by
  refine ⟨?_, rfl, ?_, ?_⟩
  · intro h
    unfold logMarginalLikelihoodE
    rw [tryCholesky_all_fail factorizes _ h]
    rfl
  · intro h
    unfold trainLoopE
    rw [h]
  · intro j js hj
    simp [tryCholeskyWithJitter, hj]

/-- Witness for C8: with a factorization that always fails, the likelihood
computation surfaces NumericalInstability, and a run whose iteration
errors returns that error. -/
theorem failures_surface_to_caller_witness :
    logMarginalLikelihoodE (fun _ => false) id
      = Except.error GPError.numericalInstability
    ∧ trainLoopE (fun _ : Unit => Except.error GPError.numericalInstability) 1 ()
      = Except.error GPError.numericalInstability :=
  ⟨(failures_surface_to_caller (fun _ => false) id
      (fun _ : Unit => Except.error GPError.numericalInstability) () 0
      GPError.numericalInstability).1 (by decide),
   (failures_surface_to_caller (fun _ => false) id
      (fun _ : Unit => Except.error GPError.numericalInstability) () 0
      GPError.numericalInstability).2.2.1 rfl⟩

/-! ## Prediction grid and confidence band (cell-6) -/

/-- Modelled from the spec: confidence_region of the predictive
distribution, computed in the library, is the predictive mean plus and
minus two standard deviations; sq stands for the numerical square-root
routine applied to the predictive variance. -/
noncomputable def confidenceRegion (sq : ℝ → ℝ) (m v : ℝ) : ℝ × ℝ :=
  (m - 2 * sq v, m + 2 * sq v)

/-- C3: cell-6 evaluates the fitted model on 51 test points evenly spaced
(step 0.1) from 0 to 5 — a domain between 6 and 7 times wider than the
training domain [0, 0.75] — and the reported band at a test point is the
predictive mean plus/minus twice the square root of the predictive
variance. -/
theorem prediction_grid_and_confidence_band :
    testX.length = 51
    ∧ (∀ i, i + 1 < 51 → testX.getD (i+1) 0 - testX.getD i 0 = 1/10)
    ∧ testX.getD 0 0 = 0
    ∧ testX.getD 50 0 = 5
    ∧ 6 * (trainX.getD 10 0 - trainX.getD 0 0)
        ≤ testX.getD 50 0 - testX.getD 0 0
    ∧ testX.getD 50 0 - testX.getD 0 0
        ≤ 7 * (trainX.getD 10 0 - trainX.getD 0 0)
    ∧ ∀ (sq : ℝ → ℝ) (m v : ℝ),
        (confidenceRegion sq m v).2 - m = 2 * sq v
        ∧ m - (confidenceRegion sq m v).1 = 2 * sq v := by
  have ht0 : testX.getD 0 0 = 0 := by
    rw [show testX = linspace 0 5 51 from rfl, linspace_getD 0 5 51 0 (by norm_num)]
    norm_num
  have ht50 : testX.getD 50 0 = 5 := by
    rw [show testX = linspace 0 5 51 from rfl, linspace_getD 0 5 51 50 (by norm_num)]
    norm_num
  have htr0 : trainX.getD 0 0 = 0 := by
    rw [show trainX = linspace 0 (3/4) 11 from rfl,
      linspace_getD 0 (3/4) 11 0 (by norm_num)]
    norm_num
  have htr10 : trainX.getD 10 0 = 3/4 := by
    rw [show trainX = linspace 0 (3/4) 11 from rfl,
      linspace_getD 0 (3/4) 11 10 (by norm_num)]
    norm_num
  refine ⟨linspace_length 0 5 51, ?_, ht0, ht50, ?_, ?_, ?_⟩
  · intro i hi
    rw [show testX = linspace 0 5 51 from rfl, linspace_spacing 0 5 51 i hi]
    norm_num
  · rw [ht0, ht50, htr0, htr10]
    norm_num
  · rw [ht0, ht50, htr0, htr10]
    norm_num
  · intro sq m v
    constructor
    · show m + 2 * sq v - m = 2 * sq v
      ring
    · show m - (m - 2 * sq v) = 2 * sq v
      ring

/-- Witness for C3: the first step of the test grid is 0.1. -/
theorem prediction_grid_and_confidence_band_witness :
    testX.getD 1 0 - testX.getD 0 0 = 1/10 :=
  prediction_grid_and_confidence_band.2.1 0 (by norm_num)

/-! ## Data generator (cell-2) -/

/-- Standard deviation multiplier of cell-2: torch.randn(...) * 0.2, i.e.
noise of variance 0.04. -/
noncomputable def noiseStd : ℝ := 2/10

/-- The data generator of cell-2, abstracted as in the spec over the count,
the domain and the noise scale: inputs evenly spaced over [a, b]
inclusive, outputs y i = sin(2 pi x i) + sigma * z i, where z is the
stream of standard-normal draws supplied by torch.randn.  A pure function
of its arguments: deterministic once the draws (the seed) are fixed, with
no effect beyond returning the two sequences. -/
noncomputable def generateData (N : ℕ) (a b : ℚ) (sigma : ℝ) (z : ℕ → ℝ) :
    List ℚ × List ℝ :=
  (linspace a b N,
   (List.range N).map (fun i : ℕ =>
     Real.sin (2 * Real.pi * (((linspace a b N).getD i 0 : ℚ) : ℝ)) + sigma * z i))

theorem generateData_y_getD (N : ℕ) (a b : ℚ) (sigma : ℝ) (z : ℕ → ℝ) (i : ℕ)
    (hi : i < N) :
    (generateData N a b sigma z).2.getD i 0
      = Real.sin (2 * Real.pi * (((linspace a b N).getD i 0 : ℚ) : ℝ)) + sigma * z i := by
  unfold generateData
  rw [List.getD_eq_getElem?_getD, List.getElem?_map, List.getElem?_range hi]
  rfl

/-- C7: the generator returns exactly N inputs evenly spaced over [a, b]
inclusive (first point a, last point b, constant spacing) and outputs
y i = sin(2 pi x i) + sigma * z i; scaling a standard-normal draw by the
notebook's 0.2 yields a zero-mean Gaussian of variance 0.04 = 1/25; and
cell-2 instantiates N = 11 on [0, 0.75]. -/
theorem generateData_contract (N : ℕ) (a b : ℚ) (sigma : ℝ) (z : ℕ → ℝ)
    (hN : 2 ≤ N) :
    ((generateData N a b sigma z).1).length = N
    ∧ ((generateData N a b sigma z).2).length = N
    ∧ (generateData N a b sigma z).1.getD 0 0 = a
    ∧ (generateData N a b sigma z).1.getD (N - 1) 0 = b
    ∧ (∀ i, i + 1 < N →
        (generateData N a b sigma z).1.getD (i + 1) 0
          - (generateData N a b sigma z).1.getD i 0 = (b - a) / ((N : ℚ) - 1))
    ∧ (∀ i, i < N →
        (generateData N a b sigma z).2.getD i 0
          = Real.sin (2 * Real.pi * (((generateData N a b sigma z).1.getD i 0 : ℚ) : ℝ))
            + sigma * z i)
    ∧ MeasureTheory.Measure.map (fun t => noiseStd * t)
        (ProbabilityTheory.gaussianReal 0 1)
        = ProbabilityTheory.gaussianReal 0 (1/25)
    ∧ trainX = (generateData 11 0 (3/4) sigma z).1 := by
  have h1 : 1 < N := by omega
  have hone : (1 : ℚ) < (N : ℚ) := by exact_mod_cast h1
  have hN1 : ((N : ℚ) - 1) ≠ 0 := sub_ne_zero.mpr (ne_of_gt hone)
  refine ⟨linspace_length a b N, ?_, ?_, ?_, ?_, ?_, ?_, rfl⟩
  · unfold generateData
    simp
  · rw [show (generateData N a b sigma z).1 = linspace a b N from rfl,
      linspace_getD a b N 0 (by omega)]
    simp
  · rw [show (generateData N a b sigma z).1 = linspace a b N from rfl,
      linspace_getD a b N (N - 1) (by omega),
      Nat.cast_sub (by omega : 1 ≤ N), Nat.cast_one]
    field_simp
  · intro i hi
    exact linspace_spacing a b N i hi
  · intro i hi
    exact generateData_y_getD N a b sigma z i hi
  · rw [ProbabilityTheory.gaussianReal_map_const_mul, mul_zero, mul_one]
    congr 1
    apply NNReal.coe_injective
    rw [NNReal.coe_mk]
    push_cast
    norm_num [noiseStd]

/-- Witness for C7 at the notebook's instantiation N = 11 on [0, 0.75]
with the zero draw stream: the last training input is 0.75. -/
theorem generateData_contract_witness :
    (generateData 11 0 (3/4) noiseStd (fun _ => 0)).1.getD 10 0 = 3/4 :=
  (generateData_contract 11 0 (3/4) noiseStd (fun _ => 0) (by norm_num)).2.2.2.1

/-- C10: the notebook never seeds torch's random state, so train_y is a
function of the fresh torch.randn draws; two executions whose draws
differ produce different targets, hence equal outputs across runs are
not guaranteed. -/
theorem trainY_depends_on_rng_draws :
    ∃ z₁ z₂ : ℕ → ℝ,
      (generateData 11 0 (3/4) noiseStd z₁).2
        ≠ (generateData 11 0 (3/4) noiseStd z₂).2 := by
  refine ⟨fun _ => 0, fun _ => 1, fun h => ?_⟩
  have h0 : (generateData 11 0 (3/4) noiseStd (fun _ => 0)).2.getD 0 0
      = (generateData 11 0 (3/4) noiseStd (fun _ => 1)).2.getD 0 0 := by rw [h]
  have hx : (linspace 0 (3/4) 11).getD 0 0 = 0 := by
    rw [linspace_getD 0 (3/4) 11 0 (by norm_num)]
    norm_num
  rw [generateData_y_getD 11 0 (3/4) noiseStd (fun _ => 0) 0 (by norm_num),
    generateData_y_getD 11 0 (3/4) noiseStd (fun _ => 1) 0 (by norm_num), hx] at h0
  norm_num [noiseStd] at h0

end SMGP
